import Mathlib

/-!
Verification of the market-data models in `src/options_pricing/core/models.py`:
the `DailyPrice` and `MinutePrice` OHLCV bar validators and the
`DataQualityReport` quality-scoring model.

Modelling conventions:
* Python `float` values (prices, vwap, quality scores, thresholds) are
  modelled as exact rationals (`Rat`); the arithmetic in the source stays
  within ranges where the spec speaks of exact real arithmetic.
* Python `date` objects are modelled by their day ordinal (`Nat`);
  `datetime` objects by a day ordinal plus a clock time in seconds since
  midnight.  Comparisons of `time()` values in the source are comparisons
  of seconds-since-midnight here.
* Python `isinstance` checks are vacuously true in the typed embedding and
  are therefore dropped; every other check is translated branch by branch
  with its exact message string.
* A constructor that raises `ValueError` is modelled as a function into
  `Except String _`: `Except.error msg` is the raised exception, and the
  absence of any half-built object is inherent in the type.
-/

namespace OptionsPricing

/-- A calendar date, identified by its day ordinal. -/
abbrev Date := Nat

/-- A naive datetime: day ordinal plus clock time in seconds since midnight.
`datetime.time()` in the source corresponds to the `secOfDay` component. -/
structure DateTime where
  day : Nat
  secOfDay : Nat
deriving DecidableEq, Repr

/-- Python `str.strip()`: drop leading and trailing whitespace.  Defined by
structural recursion over the character list so that concrete instances
reduce inside the kernel. -/
def strip (s : String) : String :=
  String.mk
    (((s.data.dropWhile Char.isWhitespace).reverse.dropWhile
      Char.isWhitespace).reverse)

/-- Clock time extraction, mirroring `self.timestamp.time()`. -/
def DateTime.time (t : DateTime) : Nat := t.secOfDay

/-- Rendering of a timestamp, used inside the market-hours error message. -/
def DateTime.render (t : DateTime) : String :=
  toString t.day ++ "+" ++ toString t.secOfDay ++ "s"

/-! ## DailyPrice (models.py lines 14-70) -/

/-- `DailyPrice` dataclass fields (models.py lines 14-25). -/
structure DailyPrice where
  ticker : String
  date : Date
  «open» : Rat
  high : Rat
  low : Rat
  close : Rat
  volume : Int
  vwap : Rat
deriving DecidableEq, Repr

namespace DailyPrice

/-- `_validate_ticker` (models.py lines 34-39). -/
def validate_ticker (b : DailyPrice) : Except String Unit :=
  if b.ticker = "" then
    Except.error "Ticker must be a non-empty string"
  else if (strip b.ticker).length = 0 then
    Except.error "Ticker cannot be empty or whitespace"
  else
    Except.ok ()

/-- `_validate_ohlc_consistency` (models.py lines 41-56). -/
def validate_ohlc_consistency (b : DailyPrice) : Except String Unit :=
  if ¬ (0 ≤ b.«open» ∧ 0 ≤ b.high ∧ 0 ≤ b.low ∧ 0 ≤ b.close) then
    Except.error "All OHLC prices must be non-negative numbers"
  else if b.high < b.low then
    Except.error "High price cannot be less than low price"
  else if ¬ (b.low ≤ b.«open» ∧ b.«open» ≤ b.high) then
    Except.error "Open price must be between low and high"
  else if ¬ (b.low ≤ b.close ∧ b.close ≤ b.high) then
    Except.error "Close price must be between low and high"
  else
    Except.ok ()

/-- `_validate_volume` (models.py lines 58-61). -/
def validate_volume (b : DailyPrice) : Except String Unit :=
  if b.volume < 0 then
    Except.error "Volume must be a non-negative integer"
  else
    Except.ok ()

/-- `_validate_vwap` (models.py lines 63-70). -/
def validate_vwap (b : DailyPrice) : Except String Unit :=
  if b.vwap < 0 then
    Except.error "VWAP must be a non-negative number"
  else if ¬ (b.low ≤ b.vwap ∧ b.vwap ≤ b.high) then
    Except.error "VWAP must be between low and high prices"
  else
    Except.ok ()

/-- `__post_init__` (models.py lines 27-32): validators in source order. -/
def post_init (b : DailyPrice) : Except String Unit :=
  b.validate_ticker >>= fun _ =>
  b.validate_ohlc_consistency >>= fun _ =>
  b.validate_volume >>= fun _ =>
  b.validate_vwap

/-- Dataclass construction `DailyPrice(...)`: build the record, run
`__post_init__`, and surface either the record or the first error. -/
def construct (ticker : String) (date : Date) (o h l c : Rat) (volume : Int)
    (vwap : Rat) : Except String DailyPrice :=
  let b : DailyPrice := ⟨ticker, date, o, h, l, c, volume, vwap⟩
  b.post_init >>= fun _ => pure b

end DailyPrice

/-! ## MinutePrice (models.py lines 73-146) -/

/-- `MinutePrice` dataclass fields (models.py lines 73-84). -/
structure MinutePrice where
  ticker : String
  timestamp : DateTime
  «open» : Rat
  high : Rat
  low : Rat
  close : Rat
  volume : Int
  vwap : Rat
deriving DecidableEq, Repr

namespace MinutePrice

/-- Market open, `09:30` as seconds since midnight (models.py line 109). -/
def market_open : Nat := 9 * 3600 + 30 * 60

/-- Market close, `16:00` as seconds since midnight (models.py line 110). -/
def market_close : Nat := 16 * 3600

/-- `_validate_ticker` (models.py lines 94-99). -/
def validate_ticker (b : MinutePrice) : Except String Unit :=
  if b.ticker = "" then
    Except.error "Ticker must be a non-empty string"
  else if (strip b.ticker).length = 0 then
    Except.error "Ticker cannot be empty or whitespace"
  else
    Except.ok ()

/-- `_validate_timestamp` (models.py lines 101-115); the datetime type check
is vacuous in the typed embedding.  The clock time is compared inclusively
against `09:30` and `16:00`; no timezone conversion or holiday logic. -/
def validate_timestamp (b : MinutePrice) : Except String Unit :=
  let time := b.timestamp.time
  if ¬ (market_open ≤ time ∧ time ≤ market_close) then
    Except.error ("Timestamp " ++ b.timestamp.render ++
      " is outside market hours (9:30 AM - 4:00 PM ET)")
  else
    Except.ok ()

/-- `_validate_ohlc_consistency` (models.py lines 117-132). -/
def validate_ohlc_consistency (b : MinutePrice) : Except String Unit :=
  if ¬ (0 ≤ b.«open» ∧ 0 ≤ b.high ∧ 0 ≤ b.low ∧ 0 ≤ b.close) then
    Except.error "All OHLC prices must be non-negative numbers"
  else if b.high < b.low then
    Except.error "High price cannot be less than low price"
  else if ¬ (b.low ≤ b.«open» ∧ b.«open» ≤ b.high) then
    Except.error "Open price must be between low and high"
  else if ¬ (b.low ≤ b.close ∧ b.close ≤ b.high) then
    Except.error "Close price must be between low and high"
  else
    Except.ok ()

/-- `_validate_volume` (models.py lines 134-137). -/
def validate_volume (b : MinutePrice) : Except String Unit :=
  if b.volume < 0 then
    Except.error "Volume must be a non-negative integer"
  else
    Except.ok ()

/-- `_validate_vwap` (models.py lines 139-146). -/
def validate_vwap (b : MinutePrice) : Except String Unit :=
  if b.vwap < 0 then
    Except.error "VWAP must be a non-negative number"
  else if ¬ (b.low ≤ b.vwap ∧ b.vwap ≤ b.high) then
    Except.error "VWAP must be between low and high prices"
  else
    Except.ok ()

/-- `__post_init__` (models.py lines 86-92): validators in source order. -/
def post_init (b : MinutePrice) : Except String Unit :=
  b.validate_ticker >>= fun _ =>
  b.validate_timestamp >>= fun _ =>
  b.validate_ohlc_consistency >>= fun _ =>
  b.validate_volume >>= fun _ =>
  b.validate_vwap

/-- Dataclass construction `MinutePrice(...)`: build the record, run
`__post_init__`, and surface either the record or the first error. -/
def construct (ticker : String) (timestamp : DateTime) (o h l c : Rat)
    (volume : Int) (vwap : Rat) : Except String MinutePrice :=
  let b : MinutePrice := ⟨ticker, timestamp, o, h, l, c, volume, vwap⟩
  b.post_init >>= fun _ => pure b

end MinutePrice

/-! ## DataQualityReport (models.py lines 149-283) -/

/-- `DataQualityReport` dataclass fields (models.py lines 149-159). -/
structure DataQualityReport where
  ticker : String
  data_type : String
  date_range : Date × Date
  total_records : Int
  missing_dates : List Date
  anomalies : List String
  quality_score : Rat
deriving DecidableEq, Repr

namespace DataQualityReport

/-- `_validate_ticker` (models.py lines 169-174). -/
def validate_ticker (r : DataQualityReport) : Except String Unit :=
  if r.ticker = "" then
    Except.error "Ticker must be a non-empty string"
  else if (strip r.ticker).length = 0 then
    Except.error "Ticker cannot be empty or whitespace"
  else
    Except.ok ()

/-- `_validate_data_type` (models.py lines 176-180). -/
def validate_data_type (r : DataQualityReport) : Except String Unit :=
  if r.data_type ∈ ["daily", "minute", "options"] then
    Except.ok ()
  else
    Except.error "Data type must be one of \x7bdaily, minute, options\x7d"

/-- `_validate_date_range` (models.py lines 182-192).  The tuple-arity and
element-type checks are vacuous in the typed embedding; the ordering check
remains. -/
def validate_date_range (r : DataQualityReport) : Except String Unit :=
  if r.date_range.1 > r.date_range.2 then
    Except.error "Start date cannot be after end date"
  else
    Except.ok ()

/-- `_validate_counts` (models.py lines 194-208).  The list-type and
element-type checks are vacuous in the typed embedding; only the
`total_records` sign check remains.  Note that nothing about the content of
`missing_dates` (duplicates, range membership) is checked. -/
def validate_counts (r : DataQualityReport) : Except String Unit :=
  if r.total_records < 0 then
    Except.error "Total records must be a non-negative integer"
  else
    Except.ok ()

/-- `_validate_quality_score` (models.py lines 210-216). -/
def validate_quality_score (r : DataQualityReport) : Except String Unit :=
  if 0 ≤ r.quality_score ∧ r.quality_score ≤ 1 then
    Except.ok ()
  else
    Except.error "Quality score must be between 0.0 and 1.0"

/-- `__post_init__` (models.py lines 161-167): the validators run in source
order, first failure wins. -/
def post_init (r : DataQualityReport) : Except String Unit := do
  r.validate_ticker
  r.validate_data_type
  r.validate_date_range
  r.validate_counts
  r.validate_quality_score

/-- Dataclass construction `DataQualityReport(...)`: build the record, run
`__post_init__`, and surface either the record or the first error. -/
def construct (ticker : String) (data_type : String) (date_range : Date × Date)
    (total_records : Int) (missing_dates : List Date) (anomalies : List String)
    (quality_score : Rat) : Except String DataQualityReport :=
  let r : DataQualityReport :=
    ⟨ticker, data_type, date_range, total_records, missing_dates, anomalies,
      quality_score⟩
  do
    r.post_init
    pure r

/-- `add_anomaly` (models.py lines 218-222); the string type check is vacuous
in the typed embedding.  Appends unconditionally. -/
def add_anomaly (r : DataQualityReport) (anomaly : String) : DataQualityReport :=
  { r with anomalies := r.anomalies ++ [anomaly] }

/-- `add_missing_date` (models.py lines 224-229); the date type check is
vacuous in the typed embedding.  Appends only when absent. -/
def add_missing_date (r : DataQualityReport) (missing_date : Date) :
    DataQualityReport :=
  if missing_date ∈ r.missing_dates then r
  else { r with missing_dates := r.missing_dates ++ [missing_date] }

/-- `calculate_quality_score` (models.py lines 231-253): returns the score and
the report with the stored `quality_score` overwritten by it. -/
def calculate_quality_score (r : DataQualityReport) :
    Rat × DataQualityReport :=
  let score : Rat := 1
  let score := score - (r.missing_dates.length : Rat) * (1 / 10)
  let score := score - (r.anomalies.length : Rat) * (1 / 20)
  let score := max 0 score
  (score, { r with quality_score := score })

/-- `is_high_quality` (models.py lines 255-265). -/
def is_high_quality (r : DataQualityReport) (threshold : Rat) : Bool :=
  decide (r.quality_score ≥ threshold)

/-- `is_high_quality` called with its default threshold `0.8`. -/
def is_high_quality_default (r : DataQualityReport) : Bool :=
  r.is_high_quality (8 / 10)

end DataQualityReport

/-! ## Result observations and generic helpers -/

/-- Whether a construction attempt produced an object. -/
def succeeds {α : Type} (e : Except String α) : Bool :=
  match e with
  | Except.ok _ => true
  | Except.error _ => false

/-- The message of the single raised error, when construction failed. -/
def errorOf {α : Type} (e : Except String α) : Option String :=
  match e with
  | Except.ok _ => none
  | Except.error m => some m

@[simp] lemma succeeds_ok {α : Type} (a : α) :
    succeeds (Except.ok a) = true := rfl

@[simp] lemma succeeds_error {α : Type} (m : String) :
    succeeds (Except.error m : Except String α) = false := rfl

@[simp] lemma errorOf_ok {α : Type} (a : α) :
    errorOf (Except.ok a) = none := rfl

@[simp] lemma errorOf_error {α : Type} (m : String) :
    errorOf (Except.error m : Except String α) = some m := rfl

lemma string_length_eq_zero (s : String) : s.length = 0 ↔ s = "" := by
  rw [← String.length_data, List.length_eq_zero]
  cases s with
  | mk data =>
    constructor
    · intro h
      subst h
      rfl
    · intro h
      have h2 := congrArg String.data h
      simpa using h2

/-! ## DataQualityReport lemmas -/

namespace DataQualityReport

/-- The conditions under which report construction succeeds, read off the
validators. -/
def ConstructValid (ticker data_type : String) (date_range : Date × Date)
    (total_records : Int) (quality_score : Rat) : Prop :=
  ticker ≠ "" ∧ strip ticker ≠ "" ∧
  data_type ∈ ["daily", "minute", "options"] ∧
  date_range.1 ≤ date_range.2 ∧
  0 ≤ total_records ∧
  0 ≤ quality_score ∧ quality_score ≤ 1

instance decConstructValid (t dt : String) (dr : Date × Date) (tr : Int)
    (qs : Rat) : Decidable (ConstructValid t dt dr tr qs) := by
  unfold ConstructValid
  infer_instance

lemma report_post_init_ok_iff (r : DataQualityReport) :
    r.post_init = Except.ok () ↔
      ConstructValid r.ticker r.data_type r.date_range r.total_records
        r.quality_score := by
  unfold post_init validate_ticker validate_data_type validate_date_range
    validate_counts validate_quality_score ConstructValid
  split_ifs with h1 h2 h3 h4 h5 h6 <;>
    simp_all [Bind.bind, Except.bind, not_lt, not_le, string_length_eq_zero]

lemma report_construct_eq (t dt : String) (dr : Date × Date) (tr : Int)
    (md : List Date) (an : List String) (qs : Rat) :
    construct t dt dr tr md an qs =
      (post_init ⟨t, dt, dr, tr, md, an, qs⟩).map
        (fun _ => (⟨t, dt, dr, tr, md, an, qs⟩ : DataQualityReport)) := by
  unfold construct
  cases h : post_init ⟨t, dt, dr, tr, md, an, qs⟩ <;>
    simp [Bind.bind, Except.bind, Except.map, h, pure, Except.pure]

lemma report_construct_ok_iff (t dt : String) (dr : Date × Date) (tr : Int)
    (md : List Date) (an : List String) (qs : Rat) :
    construct t dt dr tr md an qs =
        Except.ok (⟨t, dt, dr, tr, md, an, qs⟩ : DataQualityReport) ↔
      ConstructValid t dt dr tr qs := by
  rw [report_construct_eq]
  rw [show ConstructValid t dt dr tr qs ↔
      (⟨t, dt, dr, tr, md, an, qs⟩ : DataQualityReport).post_init =
        Except.ok () from
      (report_post_init_ok_iff (⟨t, dt, dr, tr, md, an, qs⟩ : DataQualityReport)).symm]
  cases h : post_init (⟨t, dt, dr, tr, md, an, qs⟩ : DataQualityReport) with
  | ok u => cases u; simp [Except.map]
  | error m => simp [Except.map]

lemma report_construct_ok_elim (t dt : String) (dr : Date × Date) (tr : Int)
    (md : List Date) (an : List String) (qs : Rat) (r : DataQualityReport)
    (h : construct t dt dr tr md an qs = Except.ok r) :
    r = ⟨t, dt, dr, tr, md, an, qs⟩ := by
  rw [report_construct_eq] at h
  cases hp : post_init (⟨t, dt, dr, tr, md, an, qs⟩ : DataQualityReport) with
  | ok u => rw [hp] at h; simp [Except.map] at h; exact h.symm
  | error m => rw [hp] at h; simp [Except.map] at h

lemma report_construct_error_iff (t dt : String) (dr : Date × Date) (tr : Int)
    (md : List Date) (an : List String) (qs : Rat) :
    (∃ msg, construct t dt dr tr md an qs = Except.error msg) ↔
      ¬ ConstructValid t dt dr tr qs := by
  rw [report_construct_eq]
  rw [show ConstructValid t dt dr tr qs ↔
      (⟨t, dt, dr, tr, md, an, qs⟩ : DataQualityReport).post_init =
        Except.ok () from
      (report_post_init_ok_iff (⟨t, dt, dr, tr, md, an, qs⟩ : DataQualityReport)).symm]
  cases h : post_init (⟨t, dt, dr, tr, md, an, qs⟩ : DataQualityReport) with
  | ok u => cases u; simp [Except.map, h]
  | error m => simp [Except.map, h]

end DataQualityReport

/-! ## Sequencing lemmas for Except chains -/

lemma seq_error {α : Type} (x : Except String Unit) (y : Except String α)
    (m : String) (h : x = Except.error m) :
    (x >>= fun _ => y) = Except.error m := by
  subst h
  rfl

lemma seq_ok {α : Type} (x : Except String Unit) (y : Except String α)
    (h : x = Except.ok ()) : (x >>= fun _ => y) = y := by
  subst h
  rfl

lemma seq_ok_iff (x y : Except String Unit) :
    (x >>= fun _ => y) = Except.ok () ↔
      (x = Except.ok () ∧ y = Except.ok ()) := by
  cases x with
  | ok u => cases u; simp [Bind.bind, Except.bind]
  | error m => simp [Bind.bind, Except.bind]

/-! ## PriceBar validity, read off the validators -/

/-- The shared PriceBar input conditions of the spec: non-empty,
non-whitespace ticker; non-negative prices; `high ≥ low`;
`low ≤ open ≤ high`; `low ≤ close ≤ high`; non-negative volume;
non-negative vwap with `low ≤ vwap ≤ high`. -/
def PriceBarInputValid (ticker : String) (o h l c : Rat) (volume : Int)
    (vwap : Rat) : Prop :=
  ticker ≠ "" ∧ strip ticker ≠ "" ∧
  0 ≤ o ∧ 0 ≤ h ∧ 0 ≤ l ∧ 0 ≤ c ∧
  l ≤ h ∧ l ≤ o ∧ o ≤ h ∧ l ≤ c ∧ c ≤ h ∧
  0 ≤ volume ∧ 0 ≤ vwap ∧ l ≤ vwap ∧ vwap ≤ h

instance decPriceBarInputValid (t : String) (o h l c : Rat) (v : Int)
    (w : Rat) : Decidable (PriceBarInputValid t o h l c v w) := by
  unfold PriceBarInputValid
  infer_instance

/-- A clock time inside the inclusive market-hours window `09:30`–`16:00`. -/
def DateTime.inMarketHours (ts : DateTime) : Prop :=
  MinutePrice.market_open ≤ ts.secOfDay ∧
    ts.secOfDay ≤ MinutePrice.market_close

instance decInMarketHours (ts : DateTime) :
    Decidable ts.inMarketHours := by
  unfold DateTime.inMarketHours
  infer_instance

lemma DateTime.inMarketHours_mk (day s : Nat) :
    DateTime.inMarketHours ⟨day, s⟩ ↔
      (MinutePrice.market_open ≤ s ∧ s ≤ MinutePrice.market_close) :=
  Iff.rfl

namespace DailyPrice

lemma daily_validate_ticker_ok_iff (b : DailyPrice) :
    b.validate_ticker = Except.ok () ↔
      (b.ticker ≠ "" ∧ strip b.ticker ≠ "") := by
  unfold validate_ticker
  split_ifs with h1 h2 <;> simp_all [string_length_eq_zero]

lemma daily_validate_ohlc_ok_iff (b : DailyPrice) :
    b.validate_ohlc_consistency = Except.ok () ↔
      (0 ≤ b.«open» ∧ 0 ≤ b.high ∧ 0 ≤ b.low ∧ 0 ≤ b.close ∧
       b.low ≤ b.high ∧ b.low ≤ b.«open» ∧ b.«open» ≤ b.high ∧
       b.low ≤ b.close ∧ b.close ≤ b.high) := by
  unfold validate_ohlc_consistency
  split_ifs with h1 h2 h3 h4
  · exact iff_of_false (fun f => f)
      (fun hr => absurd hr.2.2.2.2.1 (not_le.mpr h2))
  · exact iff_of_true rfl
      ⟨h1.1, h1.2.1, h1.2.2.1, h1.2.2.2, not_lt.mp h2, h3.1, h3.2, h4.1,
        h4.2⟩
  · exact iff_of_false (fun f => f)
      (fun hr => h4 ⟨hr.2.2.2.2.2.2.2.1, hr.2.2.2.2.2.2.2.2⟩)
  · exact iff_of_false (fun f => f)
      (fun hr => h3 ⟨hr.2.2.2.2.2.1, hr.2.2.2.2.2.2.1⟩)
  · exact iff_of_false (fun f => f)
      (fun hr => h1 ⟨hr.1, hr.2.1, hr.2.2.1, hr.2.2.2.1⟩)

lemma daily_validate_volume_ok_iff (b : DailyPrice) :
    b.validate_volume = Except.ok () ↔ 0 ≤ b.volume := by
  unfold validate_volume
  split_ifs with h1 <;> simp_all [not_lt]

lemma daily_validate_vwap_ok_iff (b : DailyPrice) :
    b.validate_vwap = Except.ok () ↔
      (0 ≤ b.vwap ∧ b.low ≤ b.vwap ∧ b.vwap ≤ b.high) := by
  unfold validate_vwap
  split_ifs with h1 h2
  · exact iff_of_false (fun f => f)
      (fun hr => absurd hr.1 (not_le.mpr h1))
  · exact iff_of_true rfl ⟨not_lt.mp h1, h2.1, h2.2⟩
  · exact iff_of_false (fun f => f) (fun hr => h2 ⟨hr.2.1, hr.2.2⟩)

lemma daily_post_init_ok_iff (b : DailyPrice) :
    b.post_init = Except.ok () ↔
      PriceBarInputValid b.ticker b.«open» b.high b.low b.close b.volume
        b.vwap := by
  unfold post_init PriceBarInputValid
  rw [seq_ok_iff, seq_ok_iff, seq_ok_iff, daily_validate_ticker_ok_iff,
    daily_validate_ohlc_ok_iff, daily_validate_volume_ok_iff, daily_validate_vwap_ok_iff]
  tauto

lemma daily_construct_eq (t : String) (d : Date) (o h l c : Rat) (v : Int)
    (w : Rat) :
    construct t d o h l c v w =
      (post_init ⟨t, d, o, h, l, c, v, w⟩).map
        (fun _ => (⟨t, d, o, h, l, c, v, w⟩ : DailyPrice)) := by
  unfold construct
  cases hp : post_init ⟨t, d, o, h, l, c, v, w⟩ <;>
    simp [Bind.bind, Except.bind, Except.map, hp, pure, Except.pure]

lemma daily_construct_ok_iff (t : String) (d : Date) (o h l c : Rat) (v : Int)
    (w : Rat) :
    construct t d o h l c v w =
        Except.ok (⟨t, d, o, h, l, c, v, w⟩ : DailyPrice) ↔
      PriceBarInputValid t o h l c v w := by
  rw [daily_construct_eq]
  rw [show PriceBarInputValid t o h l c v w ↔
      (⟨t, d, o, h, l, c, v, w⟩ : DailyPrice).post_init = Except.ok () from
      (daily_post_init_ok_iff (⟨t, d, o, h, l, c, v, w⟩ : DailyPrice)).symm]
  cases hp : post_init (⟨t, d, o, h, l, c, v, w⟩ : DailyPrice) with
  | ok u => cases u; simp [Except.map]
  | error m => simp [Except.map]

lemma daily_construct_error_iff (t : String) (d : Date) (o h l c : Rat) (v : Int)
    (w : Rat) :
    (∃ msg, construct t d o h l c v w = Except.error msg) ↔
      ¬ PriceBarInputValid t o h l c v w := by
  rw [daily_construct_eq]
  rw [show PriceBarInputValid t o h l c v w ↔
      (⟨t, d, o, h, l, c, v, w⟩ : DailyPrice).post_init = Except.ok () from
      (daily_post_init_ok_iff (⟨t, d, o, h, l, c, v, w⟩ : DailyPrice)).symm]
  cases hp : post_init (⟨t, d, o, h, l, c, v, w⟩ : DailyPrice) with
  | ok u => cases u; simp [Except.map, hp]
  | error m => simp [Except.map, hp]

lemma daily_construct_ok_elim (t : String) (d : Date) (o h l c : Rat) (v : Int)
    (w : Rat) (b : DailyPrice)
    (hb : construct t d o h l c v w = Except.ok b) :
    b = ⟨t, d, o, h, l, c, v, w⟩ := by
  rw [daily_construct_eq] at hb
  cases hp : post_init (⟨t, d, o, h, l, c, v, w⟩ : DailyPrice) with
  | ok u => rw [hp] at hb; simp [Except.map] at hb; exact hb.symm
  | error m => rw [hp] at hb; simp [Except.map] at hb

end DailyPrice

namespace MinutePrice

lemma minute_validate_ticker_ok_iff (b : MinutePrice) :
    b.validate_ticker = Except.ok () ↔
      (b.ticker ≠ "" ∧ strip b.ticker ≠ "") := by
  unfold validate_ticker
  split_ifs with h1 h2 <;> simp_all [string_length_eq_zero]

lemma validate_timestamp_ok_iff (b : MinutePrice) :
    b.validate_timestamp = Except.ok () ↔ b.timestamp.inMarketHours := by
  unfold validate_timestamp DateTime.inMarketHours DateTime.time
  dsimp only
  split_ifs with h1
  · exact iff_of_true rfl h1
  · exact iff_of_false (fun f => f) h1

lemma minute_validate_ohlc_ok_iff (b : MinutePrice) :
    b.validate_ohlc_consistency = Except.ok () ↔
      (0 ≤ b.«open» ∧ 0 ≤ b.high ∧ 0 ≤ b.low ∧ 0 ≤ b.close ∧
       b.low ≤ b.high ∧ b.low ≤ b.«open» ∧ b.«open» ≤ b.high ∧
       b.low ≤ b.close ∧ b.close ≤ b.high) := by
  unfold validate_ohlc_consistency
  split_ifs with h1 h2 h3 h4
  · exact iff_of_false (fun f => f)
      (fun hr => absurd hr.2.2.2.2.1 (not_le.mpr h2))
  · exact iff_of_true rfl
      ⟨h1.1, h1.2.1, h1.2.2.1, h1.2.2.2, not_lt.mp h2, h3.1, h3.2, h4.1,
        h4.2⟩
  · exact iff_of_false (fun f => f)
      (fun hr => h4 ⟨hr.2.2.2.2.2.2.2.1, hr.2.2.2.2.2.2.2.2⟩)
  · exact iff_of_false (fun f => f)
      (fun hr => h3 ⟨hr.2.2.2.2.2.1, hr.2.2.2.2.2.2.1⟩)
  · exact iff_of_false (fun f => f)
      (fun hr => h1 ⟨hr.1, hr.2.1, hr.2.2.1, hr.2.2.2.1⟩)

lemma minute_validate_volume_ok_iff (b : MinutePrice) :
    b.validate_volume = Except.ok () ↔ 0 ≤ b.volume := by
  unfold validate_volume
  split_ifs with h1 <;> simp_all [not_lt]

lemma minute_validate_vwap_ok_iff (b : MinutePrice) :
    b.validate_vwap = Except.ok () ↔
      (0 ≤ b.vwap ∧ b.low ≤ b.vwap ∧ b.vwap ≤ b.high) := by
  unfold validate_vwap
  split_ifs with h1 h2
  · exact iff_of_false (fun f => f)
      (fun hr => absurd hr.1 (not_le.mpr h1))
  · exact iff_of_true rfl ⟨not_lt.mp h1, h2.1, h2.2⟩
  · exact iff_of_false (fun f => f) (fun hr => h2 ⟨hr.2.1, hr.2.2⟩)

lemma minute_post_init_ok_iff (b : MinutePrice) :
    b.post_init = Except.ok () ↔
      (PriceBarInputValid b.ticker b.«open» b.high b.low b.close b.volume
        b.vwap ∧ b.timestamp.inMarketHours) := by
  unfold post_init PriceBarInputValid
  rw [seq_ok_iff, seq_ok_iff, seq_ok_iff, seq_ok_iff,
    minute_validate_ticker_ok_iff, validate_timestamp_ok_iff,
    minute_validate_ohlc_ok_iff, minute_validate_volume_ok_iff, minute_validate_vwap_ok_iff]
  tauto

lemma minute_construct_eq (t : String) (ts : DateTime) (o h l c : Rat) (v : Int)
    (w : Rat) :
    construct t ts o h l c v w =
      (post_init ⟨t, ts, o, h, l, c, v, w⟩).map
        (fun _ => (⟨t, ts, o, h, l, c, v, w⟩ : MinutePrice)) := by
  unfold construct
  cases hp : post_init ⟨t, ts, o, h, l, c, v, w⟩ <;>
    simp [Bind.bind, Except.bind, Except.map, hp, pure, Except.pure]

lemma minute_construct_ok_iff (t : String) (ts : DateTime) (o h l c : Rat)
    (v : Int) (w : Rat) :
    construct t ts o h l c v w =
        Except.ok (⟨t, ts, o, h, l, c, v, w⟩ : MinutePrice) ↔
      (PriceBarInputValid t o h l c v w ∧ ts.inMarketHours) := by
  rw [minute_construct_eq]
  rw [show (PriceBarInputValid t o h l c v w ∧ ts.inMarketHours) ↔
      (⟨t, ts, o, h, l, c, v, w⟩ : MinutePrice).post_init = Except.ok ()
      from
      (minute_post_init_ok_iff (⟨t, ts, o, h, l, c, v, w⟩ : MinutePrice)).symm]
  cases hp : post_init (⟨t, ts, o, h, l, c, v, w⟩ : MinutePrice) with
  | ok u => cases u; simp [Except.map]
  | error m => simp [Except.map]

lemma minute_construct_error_iff (t : String) (ts : DateTime) (o h l c : Rat)
    (v : Int) (w : Rat) :
    (∃ msg, construct t ts o h l c v w = Except.error msg) ↔
      ¬ (PriceBarInputValid t o h l c v w ∧ ts.inMarketHours) := by
  rw [minute_construct_eq]
  rw [show (PriceBarInputValid t o h l c v w ∧ ts.inMarketHours) ↔
      (⟨t, ts, o, h, l, c, v, w⟩ : MinutePrice).post_init = Except.ok ()
      from
      (minute_post_init_ok_iff (⟨t, ts, o, h, l, c, v, w⟩ : MinutePrice)).symm]
  cases hp : post_init (⟨t, ts, o, h, l, c, v, w⟩ : MinutePrice) with
  | ok u => cases u; simp [Except.map, hp]
  | error m => simp [Except.map, hp]

lemma minute_construct_ok_elim (t : String) (ts : DateTime) (o h l c : Rat)
    (v : Int) (w : Rat) (b : MinutePrice)
    (hb : construct t ts o h l c v w = Except.ok b) :
    b = ⟨t, ts, o, h, l, c, v, w⟩ := by
  rw [minute_construct_eq] at hb
  cases hp : post_init (⟨t, ts, o, h, l, c, v, w⟩ : MinutePrice) with
  | ok u => rw [hp] at hb; simp [Except.map] at hb; exact hb.symm
  | error m => rw [hp] at hb; simp [Except.map] at hb

/-! Validator-by-validator agreement with `DailyPrice` on the shared
fields: the duplicated source methods compute identical results. -/

lemma validate_ticker_eq_daily (t : String) (ts : DateTime) (d : Date)
    (o h l c : Rat) (v : Int) (w : Rat) :
    validate_ticker ⟨t, ts, o, h, l, c, v, w⟩ =
      DailyPrice.validate_ticker ⟨t, d, o, h, l, c, v, w⟩ := rfl

lemma validate_ohlc_eq_daily (t : String) (ts : DateTime) (d : Date)
    (o h l c : Rat) (v : Int) (w : Rat) :
    validate_ohlc_consistency ⟨t, ts, o, h, l, c, v, w⟩ =
      DailyPrice.validate_ohlc_consistency ⟨t, d, o, h, l, c, v, w⟩ := rfl

lemma validate_volume_eq_daily (t : String) (ts : DateTime) (d : Date)
    (o h l c : Rat) (v : Int) (w : Rat) :
    validate_volume ⟨t, ts, o, h, l, c, v, w⟩ =
      DailyPrice.validate_volume ⟨t, d, o, h, l, c, v, w⟩ := rfl

lemma validate_vwap_eq_daily (t : String) (ts : DateTime) (d : Date)
    (o h l c : Rat) (v : Int) (w : Rat) :
    validate_vwap ⟨t, ts, o, h, l, c, v, w⟩ =
      DailyPrice.validate_vwap ⟨t, d, o, h, l, c, v, w⟩ := rfl

end MinutePrice

/-! ## First-failure machinery (spec section 4.1, reference order) -/

/-- The message of the first failing check in a list of check results. -/
def firstFailure : List (Except String Unit) → Option String
  | [] => none
  | r :: rest =>
    match r with
    | Except.error m => some m
    | Except.ok _ => firstFailure rest

lemma errorOf_then_pure {α : Type} (x : Except String Unit) (b : α) :
    errorOf (x >>= fun _ => pure b) = errorOf x := by
  cases x with
  | ok u => cases u; rfl
  | error m => rfl

lemma succeeds_then_pure {α : Type} (x : Except String Unit) (b : α) :
    succeeds (x >>= fun _ => pure b) = succeeds x := by
  cases x with
  | ok u => cases u; rfl
  | error m => rfl

/-- Written from the spec: the reference validation order for Daily bars —
ticker, then OHLC consistency, then volume, then VWAP — reporting the first
failing rule.  Compared against the implementation order in claim C7. -/
def DailyPrice.referenceOrderFailure (b : DailyPrice) : Option String :=
  firstFailure
    [b.validate_ticker, b.validate_ohlc_consistency, b.validate_volume,
      b.validate_vwap]

/-- Written from the spec: the reference validation order for Minute bars —
ticker, then timestamp, then OHLC consistency, then volume, then VWAP —
reporting the first failing rule. -/
def MinutePrice.referenceOrderFailure (b : MinutePrice) : Option String :=
  firstFailure
    [b.validate_ticker, b.validate_timestamp, b.validate_ohlc_consistency,
      b.validate_volume, b.validate_vwap]

lemma DailyPrice.daily_errorOf_post_init (b : DailyPrice) :
    errorOf b.post_init = b.referenceOrderFailure := by
  unfold post_init referenceOrderFailure
  cases h1 : b.validate_ticker with
  | error m => simp [Bind.bind, Except.bind, firstFailure]
  | ok u =>
    cases u
    simp only [Bind.bind, Except.bind, firstFailure]
    cases h2 : b.validate_ohlc_consistency with
    | error m => simp [Bind.bind, Except.bind, firstFailure]
    | ok u =>
      cases u
      simp only [Bind.bind, Except.bind, firstFailure]
      cases h3 : b.validate_volume with
      | error m => simp [Bind.bind, Except.bind, firstFailure]
      | ok u =>
        cases u
        simp only [Bind.bind, Except.bind, firstFailure]
        cases h4 : b.validate_vwap with
        | error m => simp [firstFailure, errorOf]
        | ok u => cases u; simp [firstFailure, errorOf]

lemma MinutePrice.minute_errorOf_post_init (b : MinutePrice) :
    errorOf b.post_init = b.referenceOrderFailure := by
  unfold post_init referenceOrderFailure
  cases h1 : b.validate_ticker with
  | error m => simp [Bind.bind, Except.bind, firstFailure]
  | ok u =>
    cases u
    simp only [Bind.bind, Except.bind, firstFailure]
    cases h2 : b.validate_timestamp with
    | error m => simp [Bind.bind, Except.bind, firstFailure]
    | ok u =>
      cases u
      simp only [Bind.bind, Except.bind, firstFailure]
      cases h3 : b.validate_ohlc_consistency with
      | error m => simp [Bind.bind, Except.bind, firstFailure]
      | ok u =>
        cases u
        simp only [Bind.bind, Except.bind, firstFailure]
        cases h4 : b.validate_volume with
        | error m => simp [Bind.bind, Except.bind, firstFailure]
        | ok u =>
          cases u
          simp only [Bind.bind, Except.bind, firstFailure]
          cases h5 : b.validate_vwap with
          | error m => simp [firstFailure, errorOf]
          | ok u => cases u; simp [firstFailure, errorOf]

lemma DailyPrice.daily_errorOf_construct (t : String) (d : Date) (o h l c : Rat)
    (v : Int) (w : Rat) :
    errorOf (DailyPrice.construct t d o h l c v w) =
      DailyPrice.referenceOrderFailure ⟨t, d, o, h, l, c, v, w⟩ := by
  unfold DailyPrice.construct
  dsimp only
  rw [errorOf_then_pure]
  exact DailyPrice.daily_errorOf_post_init ⟨t, d, o, h, l, c, v, w⟩

lemma MinutePrice.minute_errorOf_construct (t : String) (ts : DateTime)
    (o h l c : Rat) (v : Int) (w : Rat) :
    errorOf (MinutePrice.construct t ts o h l c v w) =
      MinutePrice.referenceOrderFailure ⟨t, ts, o, h, l, c, v, w⟩ := by
  unfold MinutePrice.construct
  dsimp only
  rw [errorOf_then_pure]
  exact MinutePrice.minute_errorOf_post_init ⟨t, ts, o, h, l, c, v, w⟩

lemma DailyPrice.daily_succeeds_construct (t : String) (d : Date) (o h l c : Rat)
    (v : Int) (w : Rat) :
    succeeds (DailyPrice.construct t d o h l c v w) =
      succeeds (DailyPrice.post_init ⟨t, d, o, h, l, c, v, w⟩) := by
  unfold DailyPrice.construct
  dsimp only
  rw [succeeds_then_pure]

lemma MinutePrice.minute_succeeds_construct (t : String) (ts : DateTime)
    (o h l c : Rat) (v : Int) (w : Rat) :
    succeeds (MinutePrice.construct t ts o h l c v w) =
      succeeds (MinutePrice.post_init ⟨t, ts, o, h, l, c, v, w⟩) := by
  unfold MinutePrice.construct
  dsimp only
  rw [succeeds_then_pure]

/-! ## Further observation helpers -/

lemma succeeds_eq_true_iff (x : Except String Unit) :
    succeeds x = true ↔ x = Except.ok () := by
  cases x with
  | ok u => cases u; simp [succeeds]
  | error m => simp [succeeds]

lemma succeeds_eq_false_iff (x : Except String Unit) :
    succeeds x = false ↔ ¬ x = Except.ok () := by
  cases x with
  | ok u => cases u; simp [succeeds]
  | error m => simp [succeeds]

lemma succeeds_congr (x y : Except String Unit)
    (hxy : x = Except.ok () ↔ y = Except.ok ()) :
    succeeds x = succeeds y := by
  cases x with
  | ok u =>
    cases u
    cases y with
    | ok u2 => cases u2; rfl
    | error m => simp_all
  | error m =>
    cases y with
    | ok u2 => cases u2; simp_all
    | error m2 => rfl

lemma succeeds_map {α β : Type} (x : Except String α) (f : α → β) :
    succeeds (x.map f) = succeeds x := by
  cases x <;> rfl

/-! ## DataQualityReport: mutation and scoring helpers -/

namespace DataQualityReport

lemma add_missing_date_mem (r : DataQualityReport) (d : Date)
    (h : d ∈ r.missing_dates) : r.add_missing_date d = r := by
  unfold add_missing_date
  rw [if_pos h]

lemma add_missing_date_not_mem (r : DataQualityReport) (d : Date)
    (h : d ∉ r.missing_dates) :
    r.add_missing_date d =
      { r with missing_dates := r.missing_dates ++ [d] } := by
  unfold add_missing_date
  rw [if_neg h]

lemma mem_add_missing_date (r : DataQualityReport) (d : Date) :
    d ∈ (r.add_missing_date d).missing_dates := by
  unfold add_missing_date
  split_ifs with h
  · exact h
  · simp

lemma calc_score_fst (r : DataQualityReport) :
    r.calculate_quality_score.1 =
      max 0 (1 - (r.missing_dates.length : Rat) * (1 / 10) -
        (r.anomalies.length : Rat) * (1 / 20)) := rfl

lemma calc_score_snd (r : DataQualityReport) :
    r.calculate_quality_score.2 =
      { r with quality_score := r.calculate_quality_score.1 } := rfl

lemma calc_score_nonneg (r : DataQualityReport) :
    0 ≤ r.calculate_quality_score.1 :=
  le_max_left 0 _

lemma calc_score_le_one (r : DataQualityReport) :
    r.calculate_quality_score.1 ≤ 1 := by
  rw [calc_score_fst]
  apply max_le (by norm_num)
  have h1 : (0 : Rat) ≤ (r.missing_dates.length : Rat) * (1 / 10) := by
    positivity
  have h2 : (0 : Rat) ≤ (r.anomalies.length : Rat) * (1 / 20) := by
    positivity
  linarith

/-- The report invariants named by the spec: ordered date range, bounded
quality score, enumerated data type, non-negative record count. -/
def Invariants (r : DataQualityReport) : Prop :=
  r.date_range.1 ≤ r.date_range.2 ∧
  0 ≤ r.quality_score ∧ r.quality_score ≤ 1 ∧
  r.data_type ∈ ["daily", "minute", "options"] ∧
  0 ≤ r.total_records

instance decInvariants (r : DataQualityReport) : Decidable r.Invariants := by
  unfold Invariants
  infer_instance

lemma cv_implies_inv (t dt : String) (dr : Date × Date) (tr : Int)
    (md : List Date) (an : List String) (qs : Rat)
    (hcv : ConstructValid t dt dr tr qs) :
    Invariants ⟨t, dt, dr, tr, md, an, qs⟩ := by
  obtain ⟨-, -, h3, h4, h5, h6, h7⟩ := hcv
  exact ⟨h4, h6, h7, h3, h5⟩

end DataQualityReport

lemma DailyPrice.daily_construct_ok_post_init (t : String) (d : Date)
    (o h l c : Rat) (v : Int) (w : Rat) (b : DailyPrice)
    (hb : DailyPrice.construct t d o h l c v w = Except.ok b) :
    (⟨t, d, o, h, l, c, v, w⟩ : DailyPrice).post_init = Except.ok () := by
  rw [DailyPrice.daily_construct_eq] at hb
  cases hp : DailyPrice.post_init (⟨t, d, o, h, l, c, v, w⟩ : DailyPrice) with
  | ok u => cases u; rfl
  | error m => rw [hp] at hb; simp [Except.map] at hb

lemma MinutePrice.minute_construct_ok_post_init (t : String) (ts : DateTime)
    (o h l c : Rat) (v : Int) (w : Rat) (b : MinutePrice)
    (hb : MinutePrice.construct t ts o h l c v w = Except.ok b) :
    (⟨t, ts, o, h, l, c, v, w⟩ : MinutePrice).post_init = Except.ok () := by
  rw [MinutePrice.minute_construct_eq] at hb
  cases hp : MinutePrice.post_init
      (⟨t, ts, o, h, l, c, v, w⟩ : MinutePrice) with
  | ok u => cases u; rfl
  | error m => rw [hp] at hb; simp [Except.map] at hb

/-! ## Claim theorems -/

/-- Claim C1: for every DataQualityReport, `calculate_quality_score` returns
`max(0, 1 − 0.1·|missing_dates| − 0.05·|anomalies|)`, depending only on the
two list lengths; it returns 0.85 for one missing date and one anomaly, 1.0
for none of each, 0.0 for eleven missing dates and no anomalies, and it
overwrites the stored `quality_score` with the returned value. -/
theorem claim_C1_calculate_quality_score (r : DataQualityReport) :
    r.calculate_quality_score.1 =
      max 0 (1 - (r.missing_dates.length : Rat) * (1 / 10) -
        (r.anomalies.length : Rat) * (1 / 20))
    ∧ (∀ r' : DataQualityReport,
        r'.missing_dates.length = r.missing_dates.length →
        r'.anomalies.length = r.anomalies.length →
        r'.calculate_quality_score.1 = r.calculate_quality_score.1)
    ∧ (r.missing_dates.length = 1 → r.anomalies.length = 1 →
        r.calculate_quality_score.1 = 17 / 20)
    ∧ (r.missing_dates.length = 0 → r.anomalies.length = 0 →
        r.calculate_quality_score.1 = 1)
    ∧ (r.missing_dates.length = 11 → r.anomalies.length = 0 →
        r.calculate_quality_score.1 = 0)
    ∧ r.calculate_quality_score.2 =
        { r with quality_score := r.calculate_quality_score.1 } := by
  refine ⟨DataQualityReport.calc_score_fst r, ?_, ?_, ?_, ?_,
    DataQualityReport.calc_score_snd r⟩
  · intro r' h1 h2
    rw [DataQualityReport.calc_score_fst, DataQualityReport.calc_score_fst,
      h1, h2]
  · intro h1 h2
    rw [DataQualityReport.calc_score_fst, h1, h2]
    norm_num [max_def]
  · intro h1 h2
    rw [DataQualityReport.calc_score_fst, h1, h2]
    norm_num [max_def]
  · intro h1 h2
    rw [DataQualityReport.calc_score_fst, h1, h2]
    norm_num [max_def]

/-- Witness for C1: the three concrete scores of the spec, obtained by
applying the claim theorem to concrete reports. -/
theorem claim_C1_calculate_quality_score_witness :
    (⟨"AAPL", "daily", (1, 31), 21, [15], ["Price gap"], 1⟩ :
        DataQualityReport).calculate_quality_score.1 = 17 / 20 ∧
    (⟨"AAPL", "daily", (1, 31), 21, [], [], 1⟩ :
        DataQualityReport).calculate_quality_score.1 = 1 ∧
    (⟨"AAPL", "daily", (1, 31), 21,
        [1, 2, 3, 4, 5, 6, 7, 8, 9, 10, 11], [], 1⟩ :
        DataQualityReport).calculate_quality_score.1 = 0 :=
  ⟨(claim_C1_calculate_quality_score _).2.2.1 rfl rfl,
   (claim_C1_calculate_quality_score _).2.2.2.1 rfl rfl,
   (claim_C1_calculate_quality_score _).2.2.2.2.1 rfl rfl⟩

/-- Claim C2: `is_high_quality t` is true exactly when the currently stored
`quality_score` is at least `t` (default `0.8`), without recomputation;
`add_anomaly` and `add_missing_date` touch only their own list, so
`is_high_quality` still reflects the pre-mutation score afterwards. -/
theorem claim_C2_is_high_quality_stored (r : DataQualityReport) (t : Rat)
    (a : String) (d : Date) :
    (r.is_high_quality t = true ↔ r.quality_score ≥ t)
    ∧ r.is_high_quality_default = r.is_high_quality (8 / 10)
    ∧ r.add_anomaly a = { r with anomalies := r.anomalies ++ [a] }
    ∧ ((r.add_missing_date d).ticker = r.ticker ∧
       (r.add_missing_date d).data_type = r.data_type ∧
       (r.add_missing_date d).date_range = r.date_range ∧
       (r.add_missing_date d).total_records = r.total_records ∧
       (r.add_missing_date d).anomalies = r.anomalies ∧
       (r.add_missing_date d).quality_score = r.quality_score)
    ∧ (r.add_anomaly a).is_high_quality t = r.is_high_quality t
    ∧ (r.add_missing_date d).is_high_quality t = r.is_high_quality t := by
  refine ⟨?_, rfl, rfl, ?_, rfl, ?_⟩
  · simp [DataQualityReport.is_high_quality, ge_iff_le]
  · unfold DataQualityReport.add_missing_date
    split_ifs <;> exact ⟨rfl, rfl, rfl, rfl, rfl, rfl⟩
  · unfold DataQualityReport.is_high_quality
      DataQualityReport.add_missing_date
    split_ifs <;> rfl

/-- Witness for C2 at a concrete report: a stored score of 0.9 meets the
default threshold 0.8. -/
theorem claim_C2_is_high_quality_stored_witness :
    (⟨"AAPL", "daily", (1, 31), 21, [], [], 9 / 10⟩ :
        DataQualityReport).is_high_quality (8 / 10) = true :=
  (claim_C2_is_high_quality_stored
      (⟨"AAPL", "daily", (1, 31), 21, [], [], 9 / 10⟩ : DataQualityReport)
      (8 / 10) "x" 5).1.mpr (show (9 / 10 : Rat) ≥ 8 / 10 by norm_num)

/-- Claim C5: `add_missing_date` appends only when the date is absent;
calling it twice with the same date stores exactly one entry, and it is
idempotent under repeated identical input. -/
theorem claim_C5_add_missing_date_idempotent (r : DataQualityReport)
    (d : Date) :
    (r.add_missing_date d).add_missing_date d = r.add_missing_date d
    ∧ (d ∈ r.missing_dates → r.add_missing_date d = r)
    ∧ (d ∉ r.missing_dates →
        (r.add_missing_date d).missing_dates = r.missing_dates ++ [d])
    ∧ (r.missing_dates.count d = 0 →
        ((r.add_missing_date d).add_missing_date d).missing_dates.count d =
          1) := by
  refine ⟨DataQualityReport.add_missing_date_mem _ d
      (DataQualityReport.mem_add_missing_date r d),
    fun hmem => DataQualityReport.add_missing_date_mem r d hmem, ?_, ?_⟩
  · intro hno
    rw [DataQualityReport.add_missing_date_not_mem r d hno]
  · intro h0
    have hno : d ∉ r.missing_dates := List.count_eq_zero.mp h0
    rw [DataQualityReport.add_missing_date_mem _ d
        (DataQualityReport.mem_add_missing_date r d),
      DataQualityReport.add_missing_date_not_mem r d hno]
    simp [List.count_append, h0]

/-- Claim C3: a PriceBar input (Daily or Minute) satisfying the spec
conditions — non-empty non-whitespace ticker, non-negative prices,
`high ≥ low`, `low ≤ open ≤ high`, `low ≤ close ≤ high`,
`low ≤ vwap ≤ high`, non-negative volume, and for Minute an in-hours
timestamp — constructs successfully with every field round-tripping
unchanged; an input violating any single one of the conditions — for
Minute including a violation of the market-hours window alone — fails
with a single ValidationError and no object. -/
theorem claim_C3_price_bar_construction (t : String) (d : Date)
    (ts : DateTime) (o h l c : Rat) (v : Int) (w : Rat) :
    (PriceBarInputValid t o h l c v w →
      DailyPrice.construct t d o h l c v w =
        Except.ok (⟨t, d, o, h, l, c, v, w⟩ : DailyPrice))
    ∧ (PriceBarInputValid t o h l c v w → ts.inMarketHours →
      MinutePrice.construct t ts o h l c v w =
        Except.ok (⟨t, ts, o, h, l, c, v, w⟩ : MinutePrice))
    ∧ (¬ PriceBarInputValid t o h l c v w →
      ∃ msg, DailyPrice.construct t d o h l c v w = Except.error msg)
    ∧ (¬ (PriceBarInputValid t o h l c v w ∧ ts.inMarketHours) →
      ∃ msg, MinutePrice.construct t ts o h l c v w = Except.error msg)
    ∧ (∀ b : DailyPrice,
        DailyPrice.construct t d o h l c v w = Except.ok b →
        b.ticker = t ∧ b.date = d ∧ b.«open» = o ∧ b.high = h ∧ b.low = l ∧
        b.close = c ∧ b.volume = v ∧ b.vwap = w)
    ∧ (∀ b : MinutePrice,
        MinutePrice.construct t ts o h l c v w = Except.ok b →
        b.ticker = t ∧ b.timestamp = ts ∧ b.«open» = o ∧ b.high = h ∧
        b.low = l ∧ b.close = c ∧ b.volume = v ∧ b.vwap = w) := by
  refine ⟨?_, ?_, ?_, ?_, ?_, ?_⟩
  · intro hv
    exact (DailyPrice.daily_construct_ok_iff t d o h l c v w).mpr hv
  · intro hv hts
    exact (MinutePrice.minute_construct_ok_iff t ts o h l c v w).mpr ⟨hv, hts⟩
  · intro hnv
    exact (DailyPrice.daily_construct_error_iff t d o h l c v w).mpr hnv
  · intro hnv
    exact (MinutePrice.minute_construct_error_iff t ts o h l c v w).mpr hnv
  · intro b hb
    rw [DailyPrice.daily_construct_ok_elim t d o h l c v w b hb]
    exact ⟨rfl, rfl, rfl, rfl, rfl, rfl, rfl, rfl⟩
  · intro b hb
    rw [MinutePrice.minute_construct_ok_elim t ts o h l c v w b hb]
    exact ⟨rfl, rfl, rfl, rfl, rfl, rfl, rfl, rfl⟩

/-- Witness for C3: the AAPL example bar constructs and round-trips, and
the same fields with a 09:00 timestamp — valid except for the
market-hours window — fail to construct as a Minute bar. -/
theorem claim_C3_price_bar_construction_witness :
    DailyPrice.construct "AAPL" 15 150 155 149 154 1000000 152 =
      Except.ok (⟨"AAPL", 15, 150, 155, 149, 154, 1000000, 152⟩ :
        DailyPrice) ∧
    (∃ msg, MinutePrice.construct "AAPL" ⟨15, 32400⟩ 150 155 149 154
      1000000 152 = Except.error msg) :=
  ⟨(claim_C3_price_bar_construction "AAPL" 15 ⟨15, 37800⟩ 150 155 149 154
      1000000 152).1 (by decide),
   (claim_C3_price_bar_construction "AAPL" 15 ⟨15, 32400⟩ 150 155 149 154
      1000000 152).2.2.2.1 (by decide)⟩

/-- Claim C4: with otherwise-valid fields, MinutePrice construction accepts
a timestamp exactly when its clock time lies in the inclusive window
`09:30`–`16:00` (34200–57600 seconds): both endpoints are valid, 09:29 and
16:01 are not, and the outcome depends only on the clock time — no
timezone conversion or holiday logic. -/
theorem claim_C4_market_hours (t : String) (ts : DateTime) (o h l c : Rat)
    (v : Int) (w : Rat) (hv : PriceBarInputValid t o h l c v w) :
    (succeeds (MinutePrice.construct t ts o h l c v w) = true ↔
      (MinutePrice.market_open ≤ ts.secOfDay ∧
        ts.secOfDay ≤ MinutePrice.market_close))
    ∧ (∀ day : Nat,
        succeeds (MinutePrice.construct t ⟨day, 34200⟩ o h l c v w) = true)
    ∧ (∀ day : Nat,
        succeeds (MinutePrice.construct t ⟨day, 57600⟩ o h l c v w) = true)
    ∧ (∀ day : Nat,
        succeeds (MinutePrice.construct t ⟨day, 34140⟩ o h l c v w) =
          false)
    ∧ (∀ day : Nat,
        succeeds (MinutePrice.construct t ⟨day, 57660⟩ o h l c v w) =
          false)
    ∧ (∀ ts' : DateTime, ts'.secOfDay = ts.secOfDay →
        succeeds (MinutePrice.construct t ts' o h l c v w) =
          succeeds (MinutePrice.construct t ts o h l c v w)) := by
  have hokk : ∀ ts0 : DateTime,
      succeeds (MinutePrice.construct t ts0 o h l c v w) = true ↔
        ts0.inMarketHours := by
    intro ts0
    rw [MinutePrice.minute_succeeds_construct, succeeds_eq_true_iff,
      MinutePrice.minute_post_init_ok_iff]
    constructor
    · exact fun hx => hx.2
    · exact fun hm => ⟨hv, hm⟩
  refine ⟨hokk ts, ?_, ?_, ?_, ?_, ?_⟩
  · intro day
    exact (hokk ⟨day, 34200⟩).mpr
      ((DateTime.inMarketHours_mk day 34200).mpr (by decide))
  · intro day
    exact (hokk ⟨day, 57600⟩).mpr
      ((DateTime.inMarketHours_mk day 57600).mpr (by decide))
  · intro day
    have hne : ¬ (DateTime.inMarketHours ⟨day, 34140⟩) := fun hm =>
      absurd ((DateTime.inMarketHours_mk day 34140).mp hm) (by decide)
    cases hs : succeeds (MinutePrice.construct t ⟨day, 34140⟩ o h l c v w)
    · rfl
    · exact absurd ((hokk ⟨day, 34140⟩).mp hs) hne
  · intro day
    have hne : ¬ (DateTime.inMarketHours ⟨day, 57660⟩) := fun hm =>
      absurd ((DateTime.inMarketHours_mk day 57660).mp hm) (by decide)
    cases hs : succeeds (MinutePrice.construct t ⟨day, 57660⟩ o h l c v w)
    · rfl
    · exact absurd ((hokk ⟨day, 57660⟩).mp hs) hne
  · intro ts' he
    have hiff : ts'.inMarketHours ↔ ts.inMarketHours := by
      unfold DateTime.inMarketHours
      rw [he]
    rw [MinutePrice.minute_succeeds_construct, MinutePrice.minute_succeeds_construct]
    apply succeeds_congr
    rw [MinutePrice.minute_post_init_ok_iff, MinutePrice.minute_post_init_ok_iff]
    constructor
    · exact fun hx => ⟨hx.1, hiff.mp hx.2⟩
    · exact fun hx => ⟨hx.1, hiff.mpr hx.2⟩

/-- Witness for C4: with valid shared fields, 09:30 is accepted and 09:29
is rejected. -/
theorem claim_C4_market_hours_witness :
    succeeds (MinutePrice.construct "AAPL" ⟨15, 34200⟩ 150 155 149 154
      1000000 152) = true ∧
    succeeds (MinutePrice.construct "AAPL" ⟨15, 34140⟩ 150 155 149 154
      1000000 152) = false :=
  ⟨(claim_C4_market_hours "AAPL" ⟨15, 34200⟩ 150 155 149 154 1000000 152
      (by decide)).2.1 15,
   (claim_C4_market_hours "AAPL" ⟨15, 34140⟩ 150 155 149 154 1000000 152
      (by decide)).2.2.2.1 15⟩

/-- Claim C6: the report invariants — ordered date range, bounded score,
enumerated data type, non-negative record count — hold at construction
(construction fails otherwise) and are preserved by `add_anomaly`,
`add_missing_date` and `calculate_quality_score`; in particular the
recomputed score always lies in [0, 1]. -/
theorem claim_C6_report_invariants (t dt : String) (dr : Date × Date)
    (tr : Int) (md : List Date) (an : List String) (qs : Rat)
    (r r' : DataQualityReport) (a : String) (d : Date) :
    (DataQualityReport.construct t dt dr tr md an qs = Except.ok r' →
      r'.Invariants)
    ∧ (¬ (⟨t, dt, dr, tr, md, an, qs⟩ : DataQualityReport).Invariants →
        ∃ msg, DataQualityReport.construct t dt dr tr md an qs =
          Except.error msg)
    ∧ (r.Invariants → (r.add_anomaly a).Invariants)
    ∧ (r.Invariants → (r.add_missing_date d).Invariants)
    ∧ (r.Invariants → r.calculate_quality_score.2.Invariants)
    ∧ (0 ≤ r.calculate_quality_score.2.quality_score ∧
        r.calculate_quality_score.2.quality_score ≤ 1) := by
  refine ⟨?_, ?_, ?_, ?_, ?_, ?_⟩
  · intro hok
    have he := DataQualityReport.report_construct_ok_elim t dt dr tr md an qs r' hok
    subst he
    have hcv : DataQualityReport.ConstructValid t dt dr tr qs := by
      rw [← DataQualityReport.report_construct_ok_iff t dt dr tr md an qs]
      exact hok
    exact DataQualityReport.cv_implies_inv t dt dr tr md an qs hcv
  · intro hni
    apply (DataQualityReport.report_construct_error_iff t dt dr tr md an qs).mpr
    intro hcv
    exact hni (DataQualityReport.cv_implies_inv t dt dr tr md an qs hcv)
  · intro hi
    exact hi
  · intro hi
    unfold DataQualityReport.add_missing_date
    split_ifs <;> exact hi
  · intro hi
    obtain ⟨i1, -, -, i4, i5⟩ := hi
    exact ⟨i1, DataQualityReport.calc_score_nonneg r,
      DataQualityReport.calc_score_le_one r, i4, i5⟩
  · exact ⟨DataQualityReport.calc_score_nonneg r,
      DataQualityReport.calc_score_le_one r⟩

/-- Witness for C6: a concretely constructed report satisfies the
invariants. -/
theorem claim_C6_report_invariants_witness :
    (⟨"AAPL", "daily", (1, 31), 21, [], [], 1⟩ :
        DataQualityReport).Invariants :=
  (claim_C6_report_invariants "AAPL" "daily" (1, 31) 21 [] [] 1
      (⟨"AAPL", "daily", (1, 31), 21, [], [], 1⟩ : DataQualityReport)
      (⟨"AAPL", "daily", (1, 31), 21, [], [], 1⟩ : DataQualityReport)
      "x" 5).1
    ((DataQualityReport.report_construct_ok_iff "AAPL" "daily" (1, 31) 21 [] []
        1).mpr (by decide))

/-- Claim C9: construction validates nothing about the content of
`missing_dates`: the outcome is independent of the list, the list is stored
as-is (duplicates included), so a fresh report can hold duplicates even
though `add_missing_date` never introduces them. -/
theorem claim_C9_missing_dates_unchecked (t dt : String) (dr : Date × Date)
    (tr : Int) (md md' : List Date) (an : List String) (qs : Rat) (d : Date)
    (r : DataQualityReport) :
    succeeds (DataQualityReport.construct t dt dr tr md an qs) =
      succeeds (DataQualityReport.construct t dt dr tr md' an qs)
    ∧ (DataQualityReport.construct t dt dr tr md an qs = Except.ok r →
        r.missing_dates = md)
    ∧ DataQualityReport.construct "AAPL" "daily" (1, 31) 21 [d, d] [] 1 =
        Except.ok (⟨"AAPL", "daily", (1, 31), 21, [d, d], [], 1⟩ :
          DataQualityReport)
    ∧ (r.missing_dates.Nodup →
        (r.add_missing_date d).missing_dates.Nodup) := by
  refine ⟨?_, ?_, ?_, ?_⟩
  · rw [DataQualityReport.report_construct_eq, DataQualityReport.report_construct_eq,
      succeeds_map, succeeds_map]
    apply succeeds_congr
    rw [DataQualityReport.report_post_init_ok_iff,
      DataQualityReport.report_post_init_ok_iff]
  · intro hok
    rw [DataQualityReport.report_construct_ok_elim t dt dr tr md an qs r hok]
  · exact (DataQualityReport.report_construct_ok_iff "AAPL" "daily" (1, 31) 21
      [d, d] [] 1).mpr (by decide)
  · intro hnd
    by_cases hd : d ∈ r.missing_dates
    · rw [DataQualityReport.add_missing_date_mem r d hd]
      exact hnd
    · rw [DataQualityReport.add_missing_date_not_mem r d hd]
      simp [List.nodup_append, hnd, hd]

/-- Witness for C9: adding a fresh date to a duplicate-free report keeps the
missing-date list duplicate-free. -/
theorem claim_C9_missing_dates_unchecked_witness :
    ((⟨"AAPL", "daily", (1, 31), 21, [5, 7], [], 1⟩ :
        DataQualityReport).add_missing_date 9).missing_dates.Nodup :=
  (claim_C9_missing_dates_unchecked "AAPL" "daily" (1, 31) 21 [5, 7] [] []
      1 9
      (⟨"AAPL", "daily", (1, 31), 21, [5, 7], [], 1⟩ :
        DataQualityReport)).2.2.2 (by decide)

/-- Claim C7: construction reports the first failing rule in the reference
order — ticker, (Minute) timestamp, OHLC, volume, VWAP — as a single
ValidationError; in particular a bar whose high is below its low (with
ticker and non-negativity fine) yields exactly the high/low message even
when volume and VWAP are also invalid. -/
theorem claim_C7_first_failure_order (t : String) (d : Date) (ts : DateTime)
    (o h l c : Rat) (v : Int) (w : Rat) :
    errorOf (DailyPrice.construct t d o h l c v w) =
      DailyPrice.referenceOrderFailure ⟨t, d, o, h, l, c, v, w⟩
    ∧ errorOf (MinutePrice.construct t ts o h l c v w) =
      MinutePrice.referenceOrderFailure ⟨t, ts, o, h, l, c, v, w⟩
    ∧ (t ≠ "" → strip t ≠ "" → 0 ≤ o → 0 ≤ h → 0 ≤ l → 0 ≤ c → h < l →
        DailyPrice.construct t d o h l c v w =
          Except.error "High price cannot be less than low price") := by
  refine ⟨DailyPrice.daily_errorOf_construct t d o h l c v w,
    MinutePrice.minute_errorOf_construct t ts o h l c v w, ?_⟩
  intro ht1 ht2 ho hh hl hc hlt
  have h1 : DailyPrice.validate_ticker ⟨t, d, o, h, l, c, v, w⟩ =
      Except.ok () :=
    (DailyPrice.daily_validate_ticker_ok_iff _).mpr ⟨ht1, ht2⟩
  have h2 : DailyPrice.validate_ohlc_consistency ⟨t, d, o, h, l, c, v, w⟩ =
      Except.error "High price cannot be less than low price" := by
    unfold DailyPrice.validate_ohlc_consistency
    rw [if_neg (not_not_intro ⟨ho, hh, hl, hc⟩), if_pos hlt]
  have hp : DailyPrice.post_init ⟨t, d, o, h, l, c, v, w⟩ =
      Except.error "High price cannot be less than low price" := by
    unfold DailyPrice.post_init
    rw [seq_ok _ _ h1, seq_error _ _ _ h2]
  rw [DailyPrice.daily_construct_eq, hp]
  rfl

/-- Witness for C7: high below low with volume and VWAP also invalid
reports exactly the high/low rule. -/
theorem claim_C7_first_failure_order_witness :
    DailyPrice.construct "AAPL" 15 150 148 149 154 (-5) (-3) =
      Except.error "High price cannot be less than low price" :=
  (claim_C7_first_failure_order "AAPL" 15 ⟨15, 36000⟩ 150 148 149 154 (-5)
      (-3)).2.2 (by decide) (by decide) (by decide) (by decide) (by decide)
    (by decide) (by decide)

/-- Claim C8: a successfully constructed bar carries exactly the input
fields; in the embedding the validator methods are pure observations that
produce no modified bar, so no operation of the system changes a
constructed bar, and the single construction-time validation already
certifies the bar (re-running it succeeds and reconstruction from the bar
reproduces it identically). -/
theorem claim_C8_immutability (t : String) (d : Date) (ts : DateTime)
    (o h l c : Rat) (v : Int) (w : Rat) (b : DailyPrice) (m : MinutePrice) :
    (DailyPrice.construct t d o h l c v w = Except.ok b →
      (b = ⟨t, d, o, h, l, c, v, w⟩ ∧ b.post_init = Except.ok () ∧
        DailyPrice.construct b.ticker b.date b.«open» b.high b.low b.close
          b.volume b.vwap = Except.ok b))
    ∧ (MinutePrice.construct t ts o h l c v w = Except.ok m →
      (m = ⟨t, ts, o, h, l, c, v, w⟩ ∧ m.post_init = Except.ok () ∧
        MinutePrice.construct m.ticker m.timestamp m.«open» m.high m.low
          m.close m.volume m.vwap = Except.ok m)) := by
  constructor
  · intro hb
    have he := DailyPrice.daily_construct_ok_elim t d o h l c v w b hb
    subst he
    exact ⟨rfl, DailyPrice.daily_construct_ok_post_init t d o h l c v w _ hb, hb⟩
  · intro hm
    have he := MinutePrice.minute_construct_ok_elim t ts o h l c v w m hm
    subst he
    exact ⟨rfl, MinutePrice.minute_construct_ok_post_init t ts o h l c v w _ hm,
      hm⟩

/-- Witness for C8: the AAPL bar revalidates successfully after
construction. -/
theorem claim_C8_immutability_witness :
    (⟨"AAPL", 15, 150, 155, 149, 154, 1000000, 152⟩ :
        DailyPrice).post_init = Except.ok () :=
  ((claim_C8_immutability "AAPL" 15 ⟨15, 36000⟩ 150 155 149 154 1000000 152
      (⟨"AAPL", 15, 150, 155, 149, 154, 1000000, 152⟩ : DailyPrice)
      (⟨"AAPL", ⟨15, 36000⟩, 150, 155, 149, 154, 1000000, 152⟩ :
        MinutePrice)).1
    ((DailyPrice.daily_construct_ok_iff "AAPL" 15 150 155 149 154 1000000
        152).mpr (by decide))).2.1

/-- Claim C10: on the shared fields, DailyPrice and MinutePrice validate
identically: given any in-hours timestamp, the two constructions either
both succeed or both fail with the same error message. -/
theorem claim_C10_daily_minute_equivalence (t : String) (d : Date)
    (ts : DateTime) (o h l c : Rat) (v : Int) (w : Rat)
    (hts : ts.inMarketHours) :
    errorOf (MinutePrice.construct t ts o h l c v w) =
      errorOf (DailyPrice.construct t d o h l c v w)
    ∧ succeeds (MinutePrice.construct t ts o h l c v w) =
      succeeds (DailyPrice.construct t d o h l c v w) := by
  constructor
  · rw [MinutePrice.minute_errorOf_construct, DailyPrice.daily_errorOf_construct]
    unfold MinutePrice.referenceOrderFailure
      DailyPrice.referenceOrderFailure
    rw [MinutePrice.validate_ticker_eq_daily t ts d o h l c v w,
      MinutePrice.validate_ohlc_eq_daily t ts d o h l c v w,
      MinutePrice.validate_volume_eq_daily t ts d o h l c v w,
      MinutePrice.validate_vwap_eq_daily t ts d o h l c v w,
      show MinutePrice.validate_timestamp ⟨t, ts, o, h, l, c, v, w⟩ =
          Except.ok () from
        (MinutePrice.validate_timestamp_ok_iff _).mpr hts]
    cases hvt : DailyPrice.validate_ticker ⟨t, d, o, h, l, c, v, w⟩ <;>
      simp [firstFailure]
  · rw [MinutePrice.minute_succeeds_construct, DailyPrice.daily_succeeds_construct]
    apply succeeds_congr
    rw [MinutePrice.minute_post_init_ok_iff, DailyPrice.daily_post_init_ok_iff]
    constructor
    · exact fun hx => hx.1
    · exact fun hx => ⟨hx, hts⟩

/-- Witness for C10: an empty ticker produces the identical error for both
bar kinds at an in-hours timestamp. -/
theorem claim_C10_daily_minute_equivalence_witness :
    errorOf (MinutePrice.construct "" ⟨15, 36000⟩ 1 2 0 1 5 1) =
      errorOf (DailyPrice.construct "" 15 1 2 0 1 5 1) :=
  (claim_C10_daily_minute_equivalence "" 15 ⟨15, 36000⟩ 1 2 0 1 5 1
      (by decide)).1

/-- Witness for C5: adding the same date twice to an empty report stores
exactly one entry. -/
theorem claim_C5_add_missing_date_idempotent_witness :
    (((⟨"AAPL", "daily", (1, 31), 21, [], [], 1⟩ :
        DataQualityReport).add_missing_date 15).add_missing_date
          15).missing_dates.count 15 = 1 :=
  (claim_C5_add_missing_date_idempotent
      (⟨"AAPL", "daily", (1, 31), 21, [], [], 1⟩ : DataQualityReport)
      15).2.2.2 rfl

end OptionsPricing
